import Mathlib

/-!
Shallow embedding of the XJTLU-MCP dispatch and planning engine
(`app/services/course_service.py`, `app/services/planning_service.py`,
`app/services/ai_service.py`, `app/MCP/dispatcher.py` of the repository),
together with theorems settling the frozen claims about it.

Conventions of the embedding:
* Python strings are Lean `String`s; `str.lower()` / `str.upper()` map
  `Char.toLower` / `Char.toUpper` over the characters, and the Python
  substring test `a in b` is `strIn a b` below.
* Python dictionaries read with `.get(key, default)` become association
  lists read with `dictGetD`, and optional record fields become `Option`
  fields read with `Option.getD`.
* Python `float` arithmetic is modelled exactly over `ℚ`.
* A Python expression that can raise (indexing `[-1]` into an empty
  string) is modelled with `Option`; the `try/except` wrapper of
  `generate_semester_plan` becomes an `Option.getD` onto the default plan.
* The course catalog (loaded from a mock-data JSON file at startup) is an
  external data source; every service function takes it as an explicit
  `List Course` parameter.
-/

/-- Python `str.lower()`: lower-case every character. -/
def pyLower (s : String) : String := ⟨s.data.map Char.toLower⟩

/-- Python `str.upper()`: upper-case every character. -/
def pyUpper (s : String) : String := ⟨s.data.map Char.toUpper⟩

/-- Contiguous-sublist test on character lists, the meaning of Python's
`needle in hay` for strings. -/
def subCharSeq (needle : List Char) : List Char → Bool
  | [] => needle.isEmpty
  | c :: t => needle.isPrefixOf (c :: t) || subCharSeq needle t

/-- Python `needle in hay` on strings: substring containment. -/
def strIn (needle hay : String) : Bool := subCharSeq needle.data hay.data

/-- Helper of `pySplitDash`: accumulate the current segment. -/
def splitDashAux : List Char → List Char → List (List Char)
  | [], acc => [acc]
  | c :: t, acc => if c = '-' then acc :: splitDashAux t [] else splitDashAux t (acc ++ [c])

/-- Python `s.split("-")`: always returns at least one segment
(`"".split("-") == [""]`). -/
def pySplitDash (s : String) : List String := (splitDashAux s.data []).map (fun l => ⟨l⟩)

/-- Python `dict.get(key, default)` over an association list built in
declaration order. -/
def dictGetD : List (String × Int) → String → Int → Int
  | [], _, d => d
  | (k, v) :: rest, key, d => if k = key then v else dictGetD rest key d

/-- One record of the course catalog (`xjtlu_economics_courses.json`).
Fields the code reads with `.get(...)` or guards with `in` are `Option`s;
`code` and `name` are accessed unconditionally (`course["code"]`,
`course["name"]`). -/
structure Course where
  code : String
  name : String
  credits : Option Int := none
  tags : List String := []
  prerequisites : Option (List String) := none
  description : Option String := none
  semester : Option Int := none
  difficulty_level : Option Int := none
  deriving Repr, DecidableEq

/-- Python `course.get("credits", 5)`. -/
def getCredits (c : Course) : Int := c.credits.getD 5

/-- The caller-supplied user context, with the defaults the services use in
`user_context.get(...)`. -/
structure UserContext where
  academic_year : String := "2025-2026"
  current_semester : String := "Fall"
  major : String := "Economics"
  target_program : String := ""
  completed_courses : List String := []
  available_credits : Int := 20
  deriving Repr, DecidableEq

/-! ## CourseService (`app/services/course_service.py`) -/

/-- `CourseService._build_keyword_index`: the `subject_keywords` table, in
declaration order. -/
def subject_keywords_service : List (String × List String) :=
  [("eco", ["eco", "economics", "micro", "macro", "economic", "econ"]),
   ("stat", ["stat", "econometrics", "data", "statistics", "quantitative", "metrics"]),
   ("fin", ["fin", "finance", "monetary", "financial", "banking", "investment"]),
   ("sustain", ["sustain", "esg", "climate", "environmental", "development"]),
   ("math", ["math", "maths", "calculus", "mathematical", "linear", "algebra"])]

/-- Keyword list of one subject, `none` when the argument is not a subject. -/
def lookupSubject (subject : String) : Option (List String) :=
  (subject_keywords_service.find? (fun p => p.1 == subject)).map (·.2)

/-- `any(tag in keywords for tag in tags)` of `_build_keyword_index`:
note `tag in keywords` is list membership, not substring containment. -/
def courseHasSubjectTag (c : Course) (keywords : List String) : Bool :=
  c.tags.any (fun tag => keywords.contains tag)

/-- The bucket `keyword_index[subject]` built by `_build_keyword_index`:
the matching courses in catalog load order. -/
def indexBucket (catalog : List Course) (keywords : List String) : List Course :=
  catalog.filter (fun c => courseHasSubjectTag c keywords)

/-- `keyword in self.keyword_index`: the key exists exactly when the
argument is a subject whose bucket received at least one course. -/
def isIndexKey (catalog : List Course) (keyword : String) : Bool :=
  match lookupSubject keyword with
  | none => false
  | some keywords => !(indexBucket catalog keywords).isEmpty

/-- The bucket returned verbatim on a direct subject match. -/
def bucketOf (catalog : List Course) (keyword : String) : List Course :=
  match lookupSubject keyword with
  | none => []
  | some keywords => indexBucket catalog keywords

/-- The fuzzy-match predicate of `search_by_keyword`: the keyword occurs in
the lower-cased name, the lower-cased description, or inside any tag. -/
def fuzzyMatch (keyword : String) (c : Course) : Bool :=
  strIn keyword (pyLower c.name) || strIn keyword (pyLower (c.description.getD "")) ||
    c.tags.any (fun tag => strIn keyword tag)

/-- The sort key of `search_by_keyword`, collapsed from the Boolean pair
`(keyword in name, keyword in description)` ordered lexicographically. -/
def relevanceRank (keyword : String) (c : Course) : Nat :=
  (if strIn keyword (pyLower c.name) then 2 else 0) +
    (if strIn keyword (pyLower (c.description.getD "")) then 1 else 0)

/-- The fuzzy tier of `search_by_keyword`: filter, stable-sort descending by
relevance (`reverse=True` on a stable sort), cap at 10. -/
def fuzzySearch (catalog : List Course) (keyword : String) : List Course :=
  ((catalog.filter (fun c => fuzzyMatch keyword c)).insertionSort
      (fun a b => relevanceRank keyword b ≤ relevanceRank keyword a)).take 10

/-- `CourseService.search_by_keyword`: direct subject hit returns the index
bucket verbatim, otherwise the capped fuzzy search runs. -/
def search_by_keyword (catalog : List Course) (keyword : String) : List Course :=
  let k := pyLower keyword
  if isIndexKey catalog k then bucketOf catalog k else fuzzySearch catalog k

/-- `CourseService.get_course_by_code`: case-insensitive first match. -/
def get_course_by_code (catalog : List Course) (code : String) : Option Course :=
  catalog.find? (fun c => pyUpper c.code == pyUpper code)

/-- `CourseService.get_prerequisites`: empty when the course is absent or
has no `prerequisites` key. -/
def get_prerequisites (catalog : List Course) (code : String) : List String :=
  match get_course_by_code catalog code with
  | some c => c.prerequisites.getD []
  | none => []

/-- `CourseService.check_prerequisites_met`:
`all(prereq in completed_courses for prereq in prerequisites)`. -/
def check_prerequisites_met (catalog : List Course) (code : String)
    (completed_courses : List String) : Bool :=
  (get_prerequisites catalog code).all (fun prereq => completed_courses.contains prereq)

/-! ## Theorems for claims C5 and C10 -/

/-- C5: for a course present in the catalog, `check_prerequisites_met` is true
iff every direct prerequisite is among the completed courses (vacuously true
for an empty prerequisite list, no transitive chasing), and appending codes
that are not prerequisites to the completed list never changes the result. -/
theorem check_prerequisites_met_iff_superset (catalog : List Course) (code : String)
    (completed : List String) (c : Course)
    (hc : get_course_by_code catalog code = some c) :
    (check_prerequisites_met catalog code completed = true ↔
      ∀ p ∈ c.prerequisites.getD [], p ∈ completed) ∧
    (∀ extra : List String, (∀ e ∈ extra, e ∉ c.prerequisites.getD []) →
      check_prerequisites_met catalog code (completed ++ extra) =
        check_prerequisites_met catalog code completed) := by
  have hp : get_prerequisites catalog code = c.prerequisites.getD [] := by
    unfold get_prerequisites
    rw [hc]
  constructor
  · unfold check_prerequisites_met
    rw [hp]
    simp
  · intro extra hex
    unfold check_prerequisites_met
    rw [hp]
    have key : ∀ p ∈ c.prerequisites.getD [], (p ∈ completed ++ extra ↔ p ∈ completed) := by
      intro p hmem
      simp only [List.mem_append]
      constructor
      · rintro (h | h)
        · exact h
        · exact absurd hmem (hex p h)
      · exact Or.inl
    cases hall : (c.prerequisites.getD []).all (fun prereq => completed.contains prereq) with
    | true =>
        simp only [List.all_eq_true, List.contains, List.elem_iff] at hall ⊢
        intro p hmem
        exact (key p hmem).mpr (hall p hmem)
    | false =>
        simp only [List.all_eq_false, List.contains, List.elem_iff] at hall ⊢
        obtain ⟨p, hmem, hnot⟩ := hall
        exact ⟨p, hmem, fun h => hnot ((key p hmem).mp h)⟩

/-- The catalog used to witness C5: one econometrics course with one
prerequisite. -/
def witnessCourseC5 : Course :=
  { code := "ECO302", name := "Econometrics II", credits := some 5,
    prerequisites := some ["ECO205"] }

/-- Witness for C5 at a one-course catalog. -/
theorem check_prerequisites_met_iff_superset_witness :
    (check_prerequisites_met [witnessCourseC5] "ECO302" ["ECO205"] = true ↔
      ∀ p ∈ witnessCourseC5.prerequisites.getD [], p ∈ ["ECO205"]) ∧
    (∀ extra : List String, (∀ e ∈ extra, e ∉ witnessCourseC5.prerequisites.getD []) →
      check_prerequisites_met [witnessCourseC5] "ECO302" (["ECO205"] ++ extra) =
        check_prerequisites_met [witnessCourseC5] "ECO302" ["ECO205"]) :=
  check_prerequisites_met_iff_superset [witnessCourseC5] "ECO302" ["ECO205"]
    witnessCourseC5 (by decide)

/-- C10: a course code absent from the catalog has an empty prerequisite
list, so `check_prerequisites_met` reports it as satisfied for every
completed-course collection. -/
theorem check_prerequisites_met_unknown_code (catalog : List Course) (code : String)
    (completed : List String) (h : get_course_by_code catalog code = none) :
    check_prerequisites_met catalog code completed = true := by
  unfold check_prerequisites_met get_prerequisites
  rw [h]
  rfl

/-- Witness for C10 on the empty catalog. -/
theorem check_prerequisites_met_unknown_code_witness :
    check_prerequisites_met [] "ECO999" [] = true :=
  check_prerequisites_met_unknown_code [] "ECO999" [] (by decide)

/-! ## Dispatcher intent classification (`app/MCP/dispatcher.py`) -/

/-- `AcademicDispatcher.INTENT_KEYWORDS` in declaration order. -/
def INTENT_KEYWORDS : List (String × List String) :=
  [("course_explanation",
      ["explain", "what is", "about", "describe", "introduction", "tell me", "overview"]),
   ("semester_planning",
      ["plan", "recommend", "suggest", "build", "design", "roadmap", "schedule", "timetable"]),
   ("career_alignment",
      ["career", "job", "future", "hku", "kcl", "target", "path", "direction"]),
   ("prerequisite_check",
      ["prerequisite", "before", "need to take", "require", "must take", "pre-req"]),
   ("workload_assessment",
      ["workload", "difficult", "hard", "time", "balance", "manage", "hours", "effort"])]

/-- The loop of `_detect_intent`: first intent with a trigger occurring in
the query wins, `"general_query"` when none does. -/
def firstIntent : List (String × List String) → String → String
  | [], _ => "general_query"
  | (intent, keywords) :: rest, query =>
      if keywords.any (fun k => strIn k query) then intent else firstIntent rest query

/-- `AcademicDispatcher._detect_intent`. -/
def detect_intent (query : String) : String := firstIntent INTENT_KEYWORDS query

/-- The claim's reading of intent classification: a fixed five-step cascade
tried in declaration order, falling through to `"general_query"`. -/
def intentCascadeSpec (query : String) : String :=
  if ["explain", "what is", "about", "describe", "introduction", "tell me",
      "overview"].any (fun k => strIn k query) then "course_explanation"
  else if ["plan", "recommend", "suggest", "build", "design", "roadmap", "schedule",
      "timetable"].any (fun k => strIn k query) then "semester_planning"
  else if ["career", "job", "future", "hku", "kcl", "target", "path",
      "direction"].any (fun k => strIn k query) then "career_alignment"
  else if ["prerequisite", "before", "need to take", "require", "must take",
      "pre-req"].any (fun k => strIn k query) then "prerequisite_check"
  else if ["workload", "difficult", "hard", "time", "balance", "manage", "hours",
      "effort"].any (fun k => strIn k query) then "workload_assessment"
  else "general_query"

/-- C4: `_detect_intent` is total and equals the first-match cascade over the
five intents in declaration order, with `"general_query"` as its default; in
particular, when triggers of two intents co-occur in a query the
first-declared intent wins. -/
theorem detect_intent_eq_cascade (query : String) :
    detect_intent query = intentCascadeSpec query := rfl

/-! ## Theorems for claim C3 (search result bounds) -/


/-- On a direct subject hit, `search_by_keyword` returns the index bucket. -/
theorem search_by_keyword_index_hit (catalog : List Course) (keyword : String)
    (h : isIndexKey catalog (pyLower keyword) = true) :
    search_by_keyword catalog keyword = bucketOf catalog (pyLower keyword) := by
  unfold search_by_keyword
  simp [h]

/-- Off the index, `search_by_keyword` runs the capped fuzzy search. -/
theorem search_by_keyword_index_miss (catalog : List Course) (keyword : String)
    (h : isIndexKey catalog (pyLower keyword) = false) :
    search_by_keyword catalog keyword = fuzzySearch catalog (pyLower keyword) := by
  unfold search_by_keyword
  simp [h]

/-- C3 amended: assuming catalog codes are unique, `search_by_keyword` never
repeats a course code in either tier, and the fuzzy tier returns at most 10
courses; the index tier returns its bucket verbatim, so its length is only
bounded by the number of tag-matching courses. -/
theorem search_by_keyword_bounds (catalog : List Course) (keyword : String)
    (h : (catalog.map Course.code).Nodup) :
    ((search_by_keyword catalog keyword).map Course.code).Nodup ∧
    (isIndexKey catalog (pyLower keyword) = false →
      (search_by_keyword catalog keyword).length ≤ 10) := by
  cases hk : isIndexKey catalog (pyLower keyword) with
  | true =>
      rw [search_by_keyword_index_hit catalog keyword hk]
      refine ⟨?_, by intro hfalse; cases hfalse⟩
      unfold bucketOf
      cases lookupSubject (pyLower keyword) with
      | none => simp
      | some keywords =>
          exact h.sublist ((List.filter_sublist catalog).map Course.code)
  | false =>
      rw [search_by_keyword_index_miss catalog keyword hk]
      unfold fuzzySearch
      set k := pyLower keyword
      set fl := catalog.filter (fun c => fuzzyMatch k c) with hfl
      set sorted := fl.insertionSort (fun a b => relevanceRank k b ≤ relevanceRank k a)
        with hsorted
      have hflnodup : (fl.map Course.code).Nodup :=
        h.sublist ((List.filter_sublist catalog).map Course.code)
      have hperm : (sorted.map Course.code).Perm (fl.map Course.code) :=
        (List.perm_insertionSort _ fl).map Course.code
      have hsortednodup : (sorted.map Course.code).Nodup := hperm.nodup_iff.mpr hflnodup
      refine ⟨hsortednodup.sublist ((List.take_sublist 10 sorted).map Course.code), ?_⟩
      intro _
      simp

/-- An eleven-course catalog, every course tagged `"eco"`, with distinct
codes: its `"eco"` index bucket holds all eleven courses. -/
def ecoCatalogEleven : List Course :=
  [{ code := "C01", name := "a", tags := ["eco"] },
   { code := "C02", name := "b", tags := ["eco"] },
   { code := "C03", name := "c", tags := ["eco"] },
   { code := "C04", name := "d", tags := ["eco"] },
   { code := "C05", name := "e", tags := ["eco"] },
   { code := "C06", name := "f", tags := ["eco"] },
   { code := "C07", name := "g", tags := ["eco"] },
   { code := "C08", name := "h", tags := ["eco"] },
   { code := "C09", name := "i", tags := ["eco"] },
   { code := "C10", name := "j", tags := ["eco"] },
   { code := "C11", name := "k", tags := ["eco"] }]

/-- Counterexample to C3 as stated: on the index tier the bucket is returned
verbatim, so a keyword hitting a bucket of eleven courses yields eleven
results, more than 10. -/
theorem search_by_keyword_cap_counterexample :
    isIndexKey ecoCatalogEleven (pyLower "eco") = true ∧
    (search_by_keyword ecoCatalogEleven "eco").length = 11 ∧
    ¬ (search_by_keyword ecoCatalogEleven "eco").length ≤ 10 := by
  refine ⟨by decide, by decide, by decide⟩

/-- Witness for the amended C3 on a concrete catalog with distinct codes. -/
theorem search_by_keyword_bounds_witness :
    ((search_by_keyword ecoCatalogEleven "banking").map Course.code).Nodup ∧
    (isIndexKey ecoCatalogEleven (pyLower "banking") = false →
      (search_by_keyword ecoCatalogEleven "banking").length ≤ 10) :=
  search_by_keyword_bounds ecoCatalogEleven "banking" (by decide)

/-! ## PlanningService (`app/services/planning_service.py`) -/

/-- `PlanningService.CREDIT_LIMITS`. -/
def CREDIT_LIMITS : List (String × Int) :=
  [("year_1", 15), ("year_2", 20), ("year_3", 20), ("year_4", 15)]

/-- One entry of `PlanningService.SPECIALIZATION_PATHS`. -/
structure SpecPath where
  core_sequence : List String
  recommended_electives : List String
  career_paths : List String
  deriving Repr, DecidableEq

/-- `PlanningService.SPECIALIZATION_PATHS`. -/
def SPECIALIZATION_PATHS : List (String × SpecPath) :=
  [("quantitative_finance",
    { core_sequence := ["ECO205", "ECO214", "ECO302", "FIN301", "ECO305"],
      recommended_electives := ["ECO309", "ECO227", "MTH212"],
      career_paths := ["Quantitative Analyst", "Risk Management", "Asset Allocation"] }),
   ("policy_analysis",
    { core_sequence := ["ECO213", "ECO216", "ECO225", "ECO305", "ECO321"],
      recommended_electives := ["ECO207", "ECO212", "POL201"],
      career_paths := ["Central Banking", "Policy Advisor", "International Organizations"] }),
   ("sustainable_finance",
    { core_sequence := ["ECO307", "ECO311", "ECO305", "FIN301", "ECO225"],
      recommended_electives := ["ECO306", "ECO228", "ENV301"],
      career_paths := ["ESG Investment", "Sustainable Finance", "Impact Investing"] })]

/-- `SPECIALIZATION_PATHS.get(specialization, {})`. -/
def pathFor (specialization : String) : Option SpecPath :=
  (SPECIALIZATION_PATHS.find? (fun p => p.1 == specialization)).map (·.2)

/-- `path.get("core_sequence", [])`. -/
def pathCore (specialization : String) : List String :=
  ((pathFor specialization).map (·.core_sequence)).getD []

/-- `path.get("recommended_electives", [])`. -/
def pathElectives (specialization : String) : List String :=
  ((pathFor specialization).map (·.recommended_electives)).getD []

/-- The hard-coded quantitative marker list of `_determine_specialization`. -/
def quantitative_courses : List String := ["ECO205", "ECO214", "ECO302", "MTH212"]

/-- The hard-coded policy marker list of `_determine_specialization`. -/
def policy_courses : List String := ["ECO213", "ECO216", "ECO225", "POL201"]

/-- `PlanningService._determine_specialization`. Note the first branch tests
the literal `"hkU mfwm"` (with an upper-case `U`) against the already
lower-cased target, exactly as the source does. -/
def determine_specialization (target_program : String) (completed_courses : List String) :
    String :=
  let target := pyLower target_program
  if strIn "hkU mfwm" target || strIn "family wealth" target then "quantitative_finance"
  else if strIn "policy" target || strIn "central bank" target then "policy_analysis"
  else if strIn "sustain" target || strIn "esg" target then "sustainable_finance"
  else
    let quantitative_count := (completed_courses.filter
      (fun c => quantitative_courses.contains c)).length
    let policy_count := (completed_courses.filter (fun c => policy_courses.contains c)).length
    if quantitative_count > policy_count then "quantitative_finance"
    else if policy_count > 0 then "policy_analysis"
    else "quantitative_finance"

/-- The sort key of `_get_recommended_courses`: the pair
`(code in core_sequence, -credits)`, compared descending (`reverse=True`). -/
def recommendKey (core_sequence : List String) (c : Course) : Int × Int :=
  ((if core_sequence.contains c.code then 1 else 0), -(getCredits c))

/-- Lexicographic order on the descending sort keys: `a` may precede `b`. -/
def recommendBefore (core_sequence : List String) (a b : Course) : Prop :=
  (recommendKey core_sequence b).1 < (recommendKey core_sequence a).1 ∨
    ((recommendKey core_sequence a).1 = (recommendKey core_sequence b).1 ∧
      (recommendKey core_sequence b).2 ≤ (recommendKey core_sequence a).2)

instance (core_sequence : List String) : DecidableRel (recommendBefore core_sequence) :=
  fun a b => by unfold recommendBefore; infer_instance

/-- `PlanningService._get_recommended_courses`: resolve the path's core and
elective codes against the catalog, keep the courses offered this semester
whose prerequisites are met, and stable-sort them by the descending key. -/
def get_recommended_courses (catalog : List Course) (specialization : String)
    (semester : String) (completed_courses : List String) : List Course :=
  let core_sequence := pathCore specialization
  let electives := pathElectives specialization
  let all_courses := (core_sequence ++ electives).filterMap
    (fun code => get_course_by_code catalog code)
  let target_semester : Int := if pyLower semester == "fall" then 1 else 2
  let semester_courses := all_courses.filter (fun c =>
    (c.semester.getD 0 == 0 || c.semester.getD 0 == target_semester) &&
      check_prerequisites_met catalog c.code completed_courses)
  semester_courses.insertionSort (recommendBefore core_sequence)

/-- First pass of `_filter_courses`: greedily take every course that is not
completed, not yet selected, and fits the remaining budget. -/
def selectPassOne (completed_courses : List String) :
    List Course → List Course → Int → List Course × Int
  | [], selected, remaining => (selected, remaining)
  | course :: rest, selected, remaining =>
      if course.code ∉ completed_courses ∧ course.code ∉ selected.map Course.code ∧
          getCredits course ≤ remaining then
        selectPassOne completed_courses rest (selected ++ [course])
          (remaining - getCredits course)
      else
        selectPassOne completed_courses rest selected remaining

/-- Second pass of `_filter_courses`: the same greedy scan over the same
candidate list, breaking as soon as the remaining budget drops below 5. -/
def selectPassTwo (completed_courses : List String) :
    List Course → List Course → Int → List Course × Int
  | [], selected, remaining => (selected, remaining)
  | course :: rest, selected, remaining =>
      if course.code ∉ completed_courses ∧ course.code ∉ selected.map Course.code ∧
          getCredits course ≤ remaining then
        if remaining - getCredits course < 5 then
          (selected ++ [course], remaining - getCredits course)
        else
          selectPassTwo completed_courses rest (selected ++ [course])
            (remaining - getCredits course)
      else
        selectPassTwo completed_courses rest selected remaining

/-- `PlanningService._filter_courses`: pass one always runs; pass two runs
only when at least 5 credits remain. -/
def filter_courses (recommended_courses : List Course) (completed_courses : List String)
    (available_credits : Int) : List Course :=
  let p := selectPassOne completed_courses recommended_courses [] available_credits
  if 5 ≤ p.2 then (selectPassTwo completed_courses recommended_courses p.1 p.2).1 else p.1

/-- `sum(course.get("credits", 5) for course in courses)`. -/
def sumCredits (courses : List Course) : Int := (courses.map getCredits).sum

/-- `sum(course.get("difficulty_level", 3) for course in courses)`. -/
def sumDifficulty (courses : List Course) : Int :=
  (courses.map (fun c => c.difficulty_level.getD 3)).sum

/-- `PlanningService._assess_workload`. The year digit is the last character
of the academic-year string's first hyphen-segment; indexing `[-1]` into an
empty segment raises in Python, modelled here as `none`. -/
def assess_workload (courses : List Course) (ctx : UserContext) : Option String :=
  match ((pySplitDash ctx.academic_year).headD "").data.getLast? with
  | none => none
  | some year_key =>
      let credit_limit := dictGetD CREDIT_LIMITS ("year_" ++ (⟨[year_key]⟩ : String)) 20
      let credit_ratio : ℚ := (sumCredits courses : ℚ) / (credit_limit : ℚ)
      let course_difficulty : ℚ :=
        (sumDifficulty courses : ℚ) / ((max courses.length 1 : ℕ) : ℚ)
      let workload_score := credit_ratio * 0.6 + (course_difficulty / 5) * 0.4
      some (if workload_score < 0.6 then "light"
            else if workload_score < 0.8 then "moderate"
            else "heavy")

/-- `PlanningService._calculate_career_alignment`. The wealth-management
branch tests `"HKU MFWM" in target_program` on the original, un-lowered
target string. -/
def calculate_career_alignment (courses : List Course) (specialization : String)
    (target_program : String) : ℚ :=
  if courses.isEmpty then 0
  else
    let core_courses := pathCore specialization
    let core_coverage : ℚ :=
      ((courses.filter (fun c => core_courses.contains c.code)).length : ℚ) /
        ((max core_courses.length 1 : ℕ) : ℚ)
    let alignment :=
      if strIn "HKU MFWM" target_program then
        let quant_count := (courses.filter (fun c =>
          c.tags.any (fun tag => (["fin", "stat", "math"] : List String).contains tag))).length
        0.6 * core_coverage + 0.4 * ((quant_count : ℚ) / ((max courses.length 1 : ℕ) : ℚ))
      else core_coverage
    min (max alignment 0) 1

/-- `PlanningService._identify_gaps`. -/
def identify_gaps (selected_courses : List Course) (specialization : String)
    (completed_courses : List String) : List String :=
  let core_sequence := pathCore specialization
  let selected_codes := selected_courses.map Course.code
  let missing_cores := core_sequence.filter
    (fun c => c ∉ completed_courses ∧ c ∉ selected_codes)
  let gaps :=
    if missing_cores.isEmpty then ([] : List String)
    else ["Missing core courses: " ++ String.intercalate ", " (missing_cores.take 2) ++
      (if missing_cores.length > 2 then " and others" else "")]
  let has_quantitative := selected_courses.any (fun c =>
    c.tags.any (fun tag => (["stat", "math"] : List String).contains tag))
  let has_finance := selected_courses.any (fun c => c.tags.contains "fin")
  (gaps ++
    (if specialization == "quantitative_finance" && !has_quantitative then
      ["Limited quantitative training - consider adding econometrics or mathematics courses"]
    else [])) ++
    (if specialization == "quantitative_finance" && !has_finance then
      ["Limited finance exposure - consider adding monetary economics or business finance courses"]
    else [])

/-- The dictionary built by `generate_semester_plan` (the `calendar_dates`
entry, read from the external academic-calendar file, is omitted); the
`note` key exists only on the default plan. -/
structure Plan where
  academic_year : String
  semester : String
  specialization : String
  courses : List Course
  total_credits : Int
  workload_level : String
  career_alignment_score : ℚ
  gap_analysis : List String
  credit_limit : Int
  note : Option String := none
  deriving Repr, DecidableEq

/-- The `specialization` local of `generate_semester_plan`. -/
def specializationOf (ctx : UserContext) : String :=
  determine_specialization ctx.target_program ctx.completed_courses

/-- The `recommended_courses` local of `generate_semester_plan`. -/
def recommendedOf (catalog : List Course) (ctx : UserContext) : List Course :=
  get_recommended_courses catalog (specializationOf ctx) ctx.current_semester
    ctx.completed_courses

/-- The `filtered_courses` local of `generate_semester_plan`. -/
def selectedOf (catalog : List Course) (ctx : UserContext) : List Course :=
  filter_courses (recommendedOf catalog ctx) ctx.completed_courses ctx.available_credits

/-- The `try` body of `PlanningService.generate_semester_plan`: `none` when a
step raises (the year-digit lookup on an empty first segment). -/
def generatePlanCore (catalog : List Course) (ctx : UserContext) : Option Plan :=
  match assess_workload (selectedOf catalog ctx) ctx with
  | none => none
  | some workload_level =>
      some { academic_year := ctx.academic_year,
             semester := ctx.current_semester,
             specialization := specializationOf ctx,
             courses := selectedOf catalog ctx,
             total_credits := sumCredits (selectedOf catalog ctx),
             workload_level := workload_level,
             career_alignment_score :=
               calculate_career_alignment (selectedOf catalog ctx) (specializationOf ctx)
                 ctx.target_program,
             gap_analysis :=
               identify_gaps (selectedOf catalog ctx) (specializationOf ctx)
                 ctx.completed_courses,
             credit_limit := ctx.available_credits }

/-- First course of `PlanningService._get_default_plan`. -/
def defaultCourseMacro : Course :=
  { code := "ECO213", name := "Macroeconomics I", credits := some 5,
    description := some "Core macroeconomics principles" }

/-- Second course of `PlanningService._get_default_plan`. -/
def defaultCourseMicro : Course :=
  { code := "ECO217", name := "Microeconomics I", credits := some 5,
    description := some "Core microeconomics principles" }

/-- `PlanningService._get_default_plan`. -/
def get_default_plan (ctx : UserContext) : Plan :=
  { academic_year := ctx.academic_year,
    semester := ctx.current_semester,
    specialization := "general_economics",
    courses := [defaultCourseMacro, defaultCourseMicro],
    total_credits := 10,
    workload_level := "light",
    career_alignment_score := 0.6,
    gap_analysis := ["Default plan used due to system constraints"],
    credit_limit := ctx.available_credits,
    note := some ("This is a default plan. For personalized recommendations, " ++
      "please ensure your academic profile is complete.") }

/-- `PlanningService.generate_semester_plan`: the `except` clause returns the
default plan instead of propagating. -/
def generate_semester_plan (catalog : List Course) (ctx : UserContext) : Plan :=
  (generatePlanCore catalog ctx).getD (get_default_plan ctx)

/-! ## AIService (`app/services/ai_service.py`) and the semester-planning
dispatch branch (`app/MCP/dispatcher.py`) -/

/-- `AIService._mock_planning_advice`: the deterministic fallback template,
keyed on whether the target mentions the wealth-management goal. -/
def mock_planning_advice (plan : Plan) (profile : UserContext) : String :=
  let target := profile.target_program
  let total_credits := plan.total_credits
  let course_count := plan.courses.length
  if strIn "HKU MFWM" target then
    "This semester plan provides strong preparation for HKU's Family Wealth " ++
      "Management program. The combination of quantitative courses (econometrics, " ++
      "mathematical finance) and applied finance modules builds the analytical " ++
      "foundation required for systematic wealth management. With " ++
      toString total_credits ++ " credits across " ++ toString course_count ++
      " courses, the workload is well-balanced for sustained academic performance. " ++
      "Consider connecting with XJTLU's Career Hub to explore summer internships " ++
      "at private banks or family offices to complement this academic preparation."
  else
    "This balanced semester plan effectively combines theoretical foundations " ++
      "with practical applications. The " ++ toString total_credits ++
      " credit load across " ++ toString course_count ++ " courses provides " ++
      "comprehensive coverage while maintaining manageable workload. Focus on " ++
      "developing strong relationships with course instructors, as their mentorship " ++
      "and recommendation letters will be valuable for your future applications. " ++
      "Consider joining the XJTLU Economics Society to connect with peers sharing " ++
      "similar career aspirations."

/-- `AIService.generate_planning_advice`. `api_result` models the outcome of
`_call_deepseek_api`: `some text` on success, `none` on any exception
(timeout, transport error, missing key); every failure falls back to the
mock template. -/
def generate_planning_advice (use_mock : Bool) (api_result : Option String)
    (plan : Plan) (profile : UserContext) : String :=
  if use_mock then mock_planning_advice plan profile
  else
    match api_result with
    | some text => text
    | none => mock_planning_advice plan profile

/-- The response dictionary built by
`AcademicDispatcher._handle_semester_planning`. The source enumerates its
keys literally; it has no `fallback_mode` and no `note` key, so both are
`none` here (`fallback_mode`/`note` are set by other handlers' fallbacks). -/
structure PlanResponse where
  type : String
  recommended_courses : List Course
  total_credits : Int
  workload_assessment : String
  strategic_advice : String
  gap_analysis : List String
  career_alignment : ℚ
  academic_year : String
  semester : String
  fallback_mode : Option Bool := none
  note : Option String := none
  deriving Repr, DecidableEq

/-- `AcademicDispatcher._handle_semester_planning`: generate the plan, ask
the advice service (which never raises — it degrades internally), assemble
the typed response. -/
def handle_semester_planning (catalog : List Course) (use_mock : Bool)
    (api_result : Option String) (ctx : UserContext) : PlanResponse :=
  let plan := generate_semester_plan catalog ctx
  let advice := generate_planning_advice use_mock api_result plan ctx
  { type := "semester_plan",
    recommended_courses := plan.courses,
    total_credits := plan.total_credits,
    workload_assessment := plan.workload_level,
    strategic_advice := advice,
    gap_analysis := plan.gap_analysis,
    career_alignment := plan.career_alignment_score,
    academic_year := ctx.academic_year,
    semester := ctx.current_semester,
    fallback_mode := none,
    note := none }

/-! ## Theorems for claim C1 (specialization cascade) -/

/-- The cascade exactly as claim C1 states it: after the three goal-text
branches, the strictly larger marker count wins and quantitative-finance is
returned on a tie or when the policy count is zero. -/
def claimedSpecializationCascade (target_program : String)
    (completed_courses : List String) : String :=
  let target := pyLower target_program
  if strIn "hkU mfwm" target || strIn "family wealth" target then "quantitative_finance"
  else if strIn "policy" target || strIn "central bank" target then "policy_analysis"
  else if strIn "sustain" target || strIn "esg" target then "sustainable_finance"
  else
    let quantitative_count := (completed_courses.filter
      (fun c => quantitative_courses.contains c)).length
    let policy_count := (completed_courses.filter (fun c => policy_courses.contains c)).length
    if quantitative_count > policy_count then "quantitative_finance"
    else if policy_count > quantitative_count then "policy_analysis"
    else "quantitative_finance"

/-- Counterexample to C1 as stated: with an empty target and completed
courses `ECO205` (quantitative marker) and `ECO213` (policy marker) the two
counts tie at 1, the claim picks quantitative-finance, but the code returns
policy-analysis because its tie branch falls into `policy_count > 0`. -/
theorem determine_specialization_tie_counterexample :
    claimedSpecializationCascade "" ["ECO205", "ECO213"] = "quantitative_finance" ∧
    determine_specialization "" ["ECO205", "ECO213"] = "policy_analysis" ∧
    determine_specialization "" ["ECO205", "ECO213"] ≠
      claimedSpecializationCascade "" ["ECO205", "ECO213"] := by
  refine ⟨by decide, by decide, by decide⟩

/-- The cascade as amended: the strictly larger marker count wins, and on a
tie quantitative-finance is returned only when the policy count is zero,
policy-analysis otherwise. -/
def amendedSpecializationCascade (target_program : String)
    (completed_courses : List String) : String :=
  let target := pyLower target_program
  if strIn "hkU mfwm" target || strIn "family wealth" target then "quantitative_finance"
  else if strIn "policy" target || strIn "central bank" target then "policy_analysis"
  else if strIn "sustain" target || strIn "esg" target then "sustainable_finance"
  else
    let quantitative_count := (completed_courses.filter
      (fun c => quantitative_courses.contains c)).length
    let policy_count := (completed_courses.filter (fun c => policy_courses.contains c)).length
    if quantitative_count > policy_count then "quantitative_finance"
    else if policy_count > quantitative_count then "policy_analysis"
    else if policy_count = 0 then "quantitative_finance"
    else "policy_analysis"

/-- C1 amended: `_determine_specialization` follows the goal-text cascade and
then the marker-count comparison, with the corrected tie rule. -/
theorem determine_specialization_eq_amended_cascade (target_program : String)
    (completed_courses : List String) :
    determine_specialization target_program completed_courses =
      amendedSpecializationCascade target_program completed_courses := by
  simp only [determine_specialization, amendedSpecializationCascade]
  split_ifs <;> first | rfl | omega

/-! ## Theorems for claim C6 (workload assessment) -/

/-- The claim's per-digit credit limit: year 1 to 15, years 2 and 3 to 20,
year 4 to 15, any other digit (such as the `'5'` of `"2025-2026"`) to the
default 20. -/
def claimedCreditLimit (digit : Char) : Int :=
  if digit = '1' then 15
  else if digit = '2' then 20
  else if digit = '3' then 20
  else if digit = '4' then 15
  else 20

/-- The claim's average difficulty: mean of `difficulty_level` (defaulting a
missing field to 3) over the selected courses. -/
def claimedAvgDifficulty (courses : List Course) : ℚ :=
  (sumDifficulty courses : ℚ) / ((max courses.length 1 : ℕ) : ℚ)

/-- The claim's workload score:
`0.6*(totalCredits/creditLimit) + 0.4*(avgDifficulty/5)`. -/
def claimedWorkloadScore (courses : List Course) (digit : Char) : ℚ :=
  0.6 * ((sumCredits courses : ℚ) / (claimedCreditLimit digit : ℚ)) +
    0.4 * (claimedAvgDifficulty courses / 5)

/-- The claim's level thresholds: light below 0.6, moderate below 0.8,
otherwise heavy. -/
def claimedWorkloadLevel (courses : List Course) (digit : Char) : String :=
  if claimedWorkloadScore courses digit < 0.6 then "light"
  else if claimedWorkloadScore courses digit < 0.8 then "moderate"
  else "heavy"

/-- The `CREDIT_LIMITS` dictionary lookup keyed on `"year_" + digit` agrees
with the claim's per-digit limit table. -/
theorem credit_limit_lookup_eq (d : Char) :
    dictGetD CREDIT_LIMITS ("year_" ++ (⟨[d]⟩ : String)) 20 = claimedCreditLimit d := by
  have e : ("year_" ++ (⟨[d]⟩ : String)) = ⟨['y', 'e', 'a', 'r', '_', d]⟩ := rfl
  rw [e]
  by_cases h1 : d = '1'
  · subst h1; decide
  by_cases h2 : d = '2'
  · subst h2; decide
  by_cases h3 : d = '3'
  · subst h3; decide
  by_cases h4 : d = '4'
  · subst h4; decide
  have g : ∀ c : Char, c ≠ d →
      ((⟨['y', 'e', 'a', 'r', '_', c]⟩ : String) = ⟨['y', 'e', 'a', 'r', '_', d]⟩) → False := by
    intro c hc h
    apply hc
    have hd := congrArg String.data h
    simpa using hd
  simp only [CREDIT_LIMITS, dictGetD, claimedCreditLimit]
  rw [if_neg (g '1' (fun h => h1 h.symm)), if_neg (g '2' (fun h => h2 h.symm)),
    if_neg (g '3' (fun h => h3 h.symm)), if_neg (g '4' (fun h => h4 h.symm)),
    if_neg h1, if_neg h2, if_neg h3, if_neg h4]

/-- C6: whenever the academic-year string's first hyphen-segment has a last
character `d`, `_assess_workload` computes exactly the claimed level: credit
limit looked up per digit (default 20, hit by `"2025-2026"`), score
`0.6*(totalCredits/creditLimit) + 0.4*(avgDifficulty/5)`, thresholds 0.6 and
0.8. -/
theorem assess_workload_eq_claimed (courses : List Course) (ctx : UserContext) (d : Char)
    (hd : ((pySplitDash ctx.academic_year).headD "").data.getLast? = some d) :
    assess_workload courses ctx = some (claimedWorkloadLevel courses d) := by
  unfold assess_workload
  rw [hd]
  have hscore :
      (sumCredits courses : ℚ) /
            (dictGetD CREDIT_LIMITS ("year_" ++ (⟨[d]⟩ : String)) 20 : ℚ) * 0.6 +
          ((sumDifficulty courses : ℚ) / ((max courses.length 1 : ℕ) : ℚ)) / 5 * 0.4 =
        claimedWorkloadScore courses d := by
    rw [credit_limit_lookup_eq]
    unfold claimedWorkloadScore claimedAvgDifficulty
    ring
  simp only [claimedWorkloadLevel, hscore]

/-- Witness for C6: the default academic year `"2025-2026"` has first
segment `"2025"` and year digit `'5'`. -/
theorem assess_workload_eq_claimed_witness :
    assess_workload [] { academic_year := "2025-2026" } =
      some (claimedWorkloadLevel [] '5') :=
  assess_workload_eq_claimed [] { academic_year := "2025-2026" } '5' (by decide)

/-! ## Theorems for claim C8 (default plan on failure) -/

/-- C8: whenever the plan-generation body fails, `generate_semester_plan`
returns the fixed default plan: the two named introductory courses, 10 total
credits, light workload, 0.6 alignment, and the single gap note that a
default was used. -/
theorem generate_semester_plan_default_on_failure (catalog : List Course)
    (ctx : UserContext) (h : generatePlanCore catalog ctx = none) :
    generate_semester_plan catalog ctx = get_default_plan ctx ∧
    (get_default_plan ctx).courses = [defaultCourseMacro, defaultCourseMicro] ∧
    defaultCourseMacro.name = "Macroeconomics I" ∧
    defaultCourseMicro.name = "Microeconomics I" ∧
    (get_default_plan ctx).total_credits = 10 ∧
    (get_default_plan ctx).workload_level = "light" ∧
    (get_default_plan ctx).career_alignment_score = 0.6 ∧
    (get_default_plan ctx).gap_analysis = ["Default plan used due to system constraints"] := by
  refine ⟨?_, rfl, rfl, rfl, rfl, rfl, rfl, rfl⟩
  unfold generate_semester_plan
  rw [h]
  rfl

/-- The context that witnesses C8: an empty academic-year string, whose first
hyphen-segment is empty, so the Python year-digit indexing raises. -/
def emptyYearCtx : UserContext :=
  { academic_year := "", current_semester := "Fall", major := "Economics",
    target_program := "", completed_courses := [], available_credits := 20 }

/-- Witness for C8: on the empty catalog and an empty academic-year string
the core raises (modelled `none`) and the default plan is returned. -/
theorem generate_semester_plan_default_on_failure_witness :
    generate_semester_plan [] emptyYearCtx = get_default_plan emptyYearCtx ∧
    (get_default_plan emptyYearCtx).courses = [defaultCourseMacro, defaultCourseMicro] ∧
    defaultCourseMacro.name = "Macroeconomics I" ∧
    defaultCourseMicro.name = "Microeconomics I" ∧
    (get_default_plan emptyYearCtx).total_credits = 10 ∧
    (get_default_plan emptyYearCtx).workload_level = "light" ∧
    (get_default_plan emptyYearCtx).career_alignment_score = 0.6 ∧
    (get_default_plan emptyYearCtx).gap_analysis =
      ["Default plan used due to system constraints"] :=
  generate_semester_plan_default_on_failure [] emptyYearCtx (by rfl)

/-! ## Theorems for claim C9 (collaborator failure during semester planning) -/

/-- Both branches of the fallback template are non-empty strings. -/
theorem mock_planning_advice_ne_empty (plan : Plan) (profile : UserContext) :
    mock_planning_advice plan profile ≠ "" := by
  unfold mock_planning_advice
  dsimp only
  split_ifs
  · intro h
    have hlen := congrArg String.length h
    simp only [String.length_append] at hlen
    have hpos : 0 < String.length
        "This semester plan provides strong preparation for HKU's Family Wealth " := by
      decide
    have hnil : String.length "" = 0 := rfl
    omega
  · intro h
    have hlen := congrArg String.length h
    simp only [String.length_append] at hlen
    have hpos : 0 < String.length
        "This balanced semester plan effectively combines theoretical foundations " := by
      decide
    have hnil : String.length "" = 0 := rfl
    omega

/-- C9 amended: when the text-generation collaborator fails on a
semester-planning request, the response still has type `"semester_plan"` and
a non-empty `strategic_advice` string from the deterministic template, but it
carries no degraded-mode marker: the handler's response dictionary has no
`fallback_mode` or `note` key. -/
theorem semester_planning_fallback_no_marker (catalog : List Course) (ctx : UserContext) :
    (handle_semester_planning catalog false none ctx).type = "semester_plan" ∧
    (handle_semester_planning catalog false none ctx).strategic_advice =
      mock_planning_advice (generate_semester_plan catalog ctx) ctx ∧
    (handle_semester_planning catalog false none ctx).strategic_advice ≠ "" ∧
    (handle_semester_planning catalog false none ctx).fallback_mode = none ∧
    (handle_semester_planning catalog false none ctx).note = none := by
  refine ⟨rfl, rfl, ?_, rfl, rfl⟩
  exact mock_planning_advice_ne_empty (generate_semester_plan catalog ctx) ctx

/-- Counterexample to C9 as stated: at a concrete failing-collaborator
request the response type is `"semester_plan"` but both marker fields are
absent, so no degraded-mode marker is set. -/
theorem semester_planning_marker_counterexample :
    (handle_semester_planning [] false none emptyYearCtx).type = "semester_plan" ∧
    (handle_semester_planning [] false none emptyYearCtx).fallback_mode = none ∧
    (handle_semester_planning [] false none emptyYearCtx).note = none :=
  ⟨rfl, rfl, rfl⟩

/-! ## Theorems for claim C2 (budget invariant and code uniqueness) -/

/-- Pass one preserves the credit accounting: selected credits plus the
remaining budget is constant. -/
theorem selectPassOne_credits (completed : List String) :
    ∀ (courses sel : List Course) (rem : Int),
      sumCredits (selectPassOne completed courses sel rem).1 +
          (selectPassOne completed courses sel rem).2 =
        sumCredits sel + rem := by
  intro courses
  induction courses with
  | nil => intro sel rem; simp [selectPassOne]
  | cons c rest ih =>
      intro sel rem
      unfold selectPassOne
      split_ifs with h
      · rw [ih (sel ++ [c]) (rem - getCredits c)]
        simp [sumCredits]
      · exact ih sel rem

/-- Pass one never drives the remaining budget negative: a course is only
taken when its credits fit. -/
theorem selectPassOne_remaining_nonneg (completed : List String) :
    ∀ (courses sel : List Course) (rem : Int),
      0 ≤ rem → 0 ≤ (selectPassOne completed courses sel rem).2 := by
  intro courses
  induction courses with
  | nil => intro sel rem h; simpa [selectPassOne] using h
  | cons c rest ih =>
      intro sel rem h
      unfold selectPassOne
      split_ifs with hc
      · exact ih (sel ++ [c]) (rem - getCredits c) (by omega)
      · exact ih sel rem h

/-- Pass one preserves distinctness of the selected course codes. -/
theorem selectPassOne_nodup (completed : List String) :
    ∀ (courses sel : List Course) (rem : Int),
      (sel.map Course.code).Nodup →
      ((selectPassOne completed courses sel rem).1.map Course.code).Nodup := by
  intro courses
  induction courses with
  | nil => intro sel rem h; simpa [selectPassOne] using h
  | cons c rest ih =>
      intro sel rem h
      unfold selectPassOne
      split_ifs with hc
      · refine ih (sel ++ [c]) (rem - getCredits c) ?_
        rw [List.map_append]
        simp only [List.map_cons, List.map_nil]
        exact List.Nodup.append h (List.nodup_singleton c.code)
          (by simpa using fun hx => hc.2.1 hx)
      · exact ih sel rem h

/-- Pass two preserves the credit accounting, including through its early
break. -/
theorem selectPassTwo_credits (completed : List String) :
    ∀ (courses sel : List Course) (rem : Int),
      sumCredits (selectPassTwo completed courses sel rem).1 +
          (selectPassTwo completed courses sel rem).2 =
        sumCredits sel + rem := by
  intro courses
  induction courses with
  | nil => intro sel rem; simp [selectPassTwo]
  | cons c rest ih =>
      intro sel rem
      unfold selectPassTwo
      split_ifs with h hb
      · simp [sumCredits]
      · rw [ih (sel ++ [c]) (rem - getCredits c)]
        simp [sumCredits]
      · exact ih sel rem

/-- Pass two never drives the remaining budget negative. -/
theorem selectPassTwo_remaining_nonneg (completed : List String) :
    ∀ (courses sel : List Course) (rem : Int),
      0 ≤ rem → 0 ≤ (selectPassTwo completed courses sel rem).2 := by
  intro courses
  induction courses with
  | nil => intro sel rem h; simpa [selectPassTwo] using h
  | cons c rest ih =>
      intro sel rem h
      unfold selectPassTwo
      split_ifs with hc hb
      · simp only
        omega
      · exact ih (sel ++ [c]) (rem - getCredits c) (by omega)
      · exact ih sel rem h

/-- Pass two preserves distinctness of the selected course codes. -/
theorem selectPassTwo_nodup (completed : List String) :
    ∀ (courses sel : List Course) (rem : Int),
      (sel.map Course.code).Nodup →
      ((selectPassTwo completed courses sel rem).1.map Course.code).Nodup := by
  intro courses
  induction courses with
  | nil => intro sel rem h; simpa [selectPassTwo] using h
  | cons c rest ih =>
      intro sel rem h
      unfold selectPassTwo
      split_ifs with hc hb
      · rw [List.map_append]
        simp only [List.map_cons, List.map_nil]
        exact List.Nodup.append h (List.nodup_singleton c.code)
          (by simpa using fun hx => hc.2.1 hx)
      · refine ih (sel ++ [c]) (rem - getCredits c) ?_
        rw [List.map_append]
        simp only [List.map_cons, List.map_nil]
        exact List.Nodup.append h (List.nodup_singleton c.code)
          (by simpa using fun hx => hc.2.1 hx)
      · exact ih sel rem h

/-- `_filter_courses` respects the credit budget and never selects the same
course code twice, for any candidate list and non-negative budget. -/
theorem filter_courses_budget (recommended : List Course) (completed : List String)
    (available : Int) (h0 : 0 ≤ available) :
    sumCredits (filter_courses recommended completed available) ≤ available ∧
    ((filter_courses recommended completed available).map Course.code).Nodup := by
  unfold filter_courses
  dsimp only
  have h1 := selectPassOne_credits completed recommended [] available
  have h2 := selectPassOne_remaining_nonneg completed recommended [] available h0
  have h3 := selectPassOne_nodup completed recommended [] available (by simp)
  split_ifs with h5
  · have g1 := selectPassTwo_credits completed recommended
      (selectPassOne completed recommended [] available).1
      (selectPassOne completed recommended [] available).2
    have g2 := selectPassTwo_remaining_nonneg completed recommended
      (selectPassOne completed recommended [] available).1
      (selectPassOne completed recommended [] available).2 h2
    have g3 := selectPassTwo_nodup completed recommended
      (selectPassOne completed recommended [] available).1
      (selectPassOne completed recommended [] available).2 h3
    refine ⟨?_, g3⟩
    have : sumCredits ([] : List Course) = 0 := rfl
    omega
  · refine ⟨?_, h3⟩
    have : sumCredits ([] : List Course) = 0 := rfl
    omega

/-- The success condition of the embedded pipeline: the academic-year
string's first hyphen-segment is non-empty, so the Python year-digit
indexing does not raise. -/
def yearDigitExists (ctx : UserContext) : Prop :=
  ((pySplitDash ctx.academic_year).headD "").data ≠ []

instance (ctx : UserContext) : Decidable (yearDigitExists ctx) := by
  unfold yearDigitExists
  infer_instance

/-- When the year digit exists, `_assess_workload` returns a level. -/
theorem assess_workload_isSome (courses : List Course) (ctx : UserContext)
    (h : yearDigitExists ctx) :
    ∃ wl, assess_workload courses ctx = some wl := by
  unfold yearDigitExists at h
  obtain ⟨d, hd⟩ : ∃ d, ((pySplitDash ctx.academic_year).headD "").data.getLast? = some d := by
    cases hl : ((pySplitDash ctx.academic_year).headD "").data.getLast? with
    | none => exact absurd (List.getLast?_eq_none_iff.mp hl) h
    | some d => exact ⟨d, rfl⟩
  exact ⟨claimedWorkloadLevel courses d, assess_workload_eq_claimed courses ctx d hd⟩

/-- When the pipeline succeeds, the returned plan is the pipeline's plan:
its course list is the filtered selection, its total the selection's credit
sum, its alignment the computed alignment. -/
theorem generate_semester_plan_success_fields (catalog : List Course) (ctx : UserContext)
    (h : yearDigitExists ctx) :
    (generate_semester_plan catalog ctx).courses = selectedOf catalog ctx ∧
    (generate_semester_plan catalog ctx).total_credits =
      sumCredits (selectedOf catalog ctx) ∧
    (generate_semester_plan catalog ctx).career_alignment_score =
      calculate_career_alignment (selectedOf catalog ctx) (specializationOf ctx)
        ctx.target_program ∧
    ∃ wl, assess_workload (selectedOf catalog ctx) ctx = some wl ∧
      (generate_semester_plan catalog ctx).workload_level = wl := by
  obtain ⟨wl, hwl⟩ := assess_workload_isSome (selectedOf catalog ctx) ctx h
  unfold generate_semester_plan generatePlanCore
  rw [hwl]
  exact ⟨rfl, rfl, rfl, wl, rfl, rfl⟩

/-- C2: whenever plan generation succeeds without falling back to the
default plan, the produced plan's `total_credits` (the sum of selected
credits, a missing credits field defaulting to 5) never exceeds the
`available_credits` budget of the profile (non-negative, as the data model
requires), and no course code appears twice among the selected courses. -/
theorem generate_semester_plan_budget (catalog : List Course) (ctx : UserContext)
    (hava : 0 ≤ ctx.available_credits) (h : yearDigitExists ctx) :
    (generate_semester_plan catalog ctx).total_credits ≤ ctx.available_credits ∧
    ((generate_semester_plan catalog ctx).courses.map Course.code).Nodup := by
  obtain ⟨hc, ht, -, -⟩ := generate_semester_plan_success_fields catalog ctx h
  have hb := filter_courses_budget (recommendedOf catalog ctx) ctx.completed_courses
    ctx.available_credits hava
  rw [hc, ht]
  exact ⟨hb.1, hb.2⟩

/-- Witness for C2 at the default context and empty catalog. -/
theorem generate_semester_plan_budget_witness :
    (generate_semester_plan [] {}).total_credits ≤ ({} : UserContext).available_credits ∧
    ((generate_semester_plan [] {}).courses.map Course.code).Nodup :=
  generate_semester_plan_budget [] {} (by decide) (by decide)

/-! ## Theorems for claim C7 (score ranges and the degenerate profile) -/

/-- The clamp of `_calculate_career_alignment` keeps every alignment score
within `[0, 1]`. -/
theorem calculate_career_alignment_range (courses : List Course) (specialization : String)
    (target_program : String) :
    0 ≤ calculate_career_alignment courses specialization target_program ∧
      calculate_career_alignment courses specialization target_program ≤ 1 := by
  unfold calculate_career_alignment
  split_ifs
  · norm_num
  all_goals exact ⟨le_min (le_max_right _ 0) zero_le_one, min_le_right _ 1⟩

/-- Every level `_assess_workload` returns is light, moderate or heavy. -/
theorem assess_workload_level_cases (courses : List Course) (ctx : UserContext)
    (wl : String) (h : assess_workload courses ctx = some wl) :
    wl = "light" ∨ wl = "moderate" ∨ wl = "heavy" := by
  unfold assess_workload at h
  cases hl : ((pySplitDash ctx.academic_year).headD "").data.getLast? with
  | none => rw [hl] at h; cases h
  | some d =>
      rw [hl] at h
      have h' := Option.some.inj h
      split_ifs at h'
      · exact Or.inl h'.symm
      · exact Or.inr (Or.inl h'.symm)
      · exact Or.inr (Or.inr h'.symm)

/-- Every course `_get_recommended_courses` returns comes from the catalog. -/
theorem recommended_mem_catalog (catalog : List Course) (ctx : UserContext) :
    ∀ c ∈ recommendedOf catalog ctx, c ∈ catalog := by
  intro c hc
  unfold recommendedOf get_recommended_courses at hc
  have h1 := (List.perm_insertionSort _ _).mem_iff.mp hc
  have h2 := List.mem_of_mem_filter h1
  obtain ⟨code, -, hcode⟩ := List.mem_filterMap.mp h2
  exact List.mem_of_find?_eq_some hcode

/-- With a zero budget and positive course credits, pass one selects
nothing. -/
theorem selectPassOne_zero_budget (completed : List String) :
    ∀ (courses sel : List Course), (∀ c ∈ courses, 0 < getCredits c) →
      selectPassOne completed courses sel 0 = (sel, 0) := by
  intro courses
  induction courses with
  | nil => intro sel _; rfl
  | cons c rest ih =>
      intro sel h
      unfold selectPassOne
      rw [if_neg]
      · exact ih sel (fun x hx => h x (List.mem_cons_of_mem c hx))
      · rintro ⟨-, -, hcr⟩
        have := h c (List.mem_cons_self c rest)
        omega

/-- With a zero budget and a positive-credit catalog, the selection is
empty. -/
theorem selectedOf_zero_budget (catalog : List Course) (ctx : UserContext)
    (h0 : ctx.available_credits = 0) (hpos : ∀ c ∈ catalog, 0 < getCredits c) :
    selectedOf catalog ctx = [] := by
  have hrec : ∀ c ∈ recommendedOf catalog ctx, 0 < getCredits c :=
    fun c hc => hpos c (recommended_mem_catalog catalog ctx c hc)
  unfold selectedOf filter_courses
  dsimp only
  rw [h0, selectPassOne_zero_budget ctx.completed_courses (recommendedOf catalog ctx) []
    hrec]
  norm_num

/-- The claimed level of an empty selection is light: its score is zero. -/
theorem claimedWorkloadLevel_empty (d : Char) : claimedWorkloadLevel [] d = "light" := by
  have hs : claimedWorkloadScore [] d = 0 := by
    unfold claimedWorkloadScore claimedAvgDifficulty sumCredits sumDifficulty
    simp
  unfold claimedWorkloadLevel
  rw [hs]
  norm_num

/-- An empty selection always scores alignment 0. -/
theorem calculate_career_alignment_empty (specialization target_program : String) :
    calculate_career_alignment [] specialization target_program = 0 := by
  simp [calculate_career_alignment]

/-- With an empty core sequence, alignment is 0 outside the wealth-management
branch. -/
theorem calculate_career_alignment_empty_core (courses : List Course)
    (specialization target_program : String) (hc : pathCore specialization = [])
    (ht : strIn "HKU MFWM" target_program = false) :
    calculate_career_alignment courses specialization target_program = 0 := by
  unfold calculate_career_alignment
  split_ifs with h1 h2
  · rfl
  · rw [ht] at h2; cases h2
  · rw [hc]
    simp

/-- C7 amended: every generated plan (fallback included) has an alignment
score in `[0, 1]` and a workload level among light/moderate/heavy; an empty
selection scores 0, as does an empty core sequence outside the
wealth-management branch; and the degenerate zero-credit profile (with the
catalog's credits positive, as the data model requires) yields the empty
plan with 0 credits, light workload and alignment 0. -/
theorem plan_scores_in_range (catalog : List Course) (ctx : UserContext) :
    (0 ≤ (generate_semester_plan catalog ctx).career_alignment_score ∧
     (generate_semester_plan catalog ctx).career_alignment_score ≤ 1 ∧
     ((generate_semester_plan catalog ctx).workload_level = "light" ∨
      (generate_semester_plan catalog ctx).workload_level = "moderate" ∨
      (generate_semester_plan catalog ctx).workload_level = "heavy")) ∧
    (∀ specialization target_program : String,
      calculate_career_alignment [] specialization target_program = 0) ∧
    (∀ (courses : List Course) (specialization target_program : String),
      pathCore specialization = [] → strIn "HKU MFWM" target_program = false →
      calculate_career_alignment courses specialization target_program = 0) ∧
    (ctx.available_credits = 0 → (∀ c ∈ catalog, 0 < getCredits c) →
      yearDigitExists ctx →
      (generate_semester_plan catalog ctx).courses = [] ∧
      (generate_semester_plan catalog ctx).total_credits = 0 ∧
      (generate_semester_plan catalog ctx).workload_level = "light" ∧
      (generate_semester_plan catalog ctx).career_alignment_score = 0) := by
  refine ⟨?_, calculate_career_alignment_empty,
    calculate_career_alignment_empty_core, ?_⟩
  · cases hwl : assess_workload (selectedOf catalog ctx) ctx with
    | none =>
        have hgen : generate_semester_plan catalog ctx = get_default_plan ctx := by
          unfold generate_semester_plan generatePlanCore
          rw [hwl]
          rfl
        rw [hgen]
        refine ⟨by norm_num [get_default_plan], by norm_num [get_default_plan], Or.inl rfl⟩
    | some wl =>
        have hgen :
            (generate_semester_plan catalog ctx).career_alignment_score =
              calculate_career_alignment (selectedOf catalog ctx) (specializationOf ctx)
                ctx.target_program ∧
            (generate_semester_plan catalog ctx).workload_level = wl := by
          unfold generate_semester_plan generatePlanCore
          rw [hwl]
          exact ⟨rfl, rfl⟩
        rw [hgen.1, hgen.2]
        have hr := calculate_career_alignment_range (selectedOf catalog ctx)
          (specializationOf ctx) ctx.target_program
        exact ⟨hr.1, hr.2, assess_workload_level_cases _ _ _ hwl⟩
  · intro h0 hpos hyd
    have hsel := selectedOf_zero_budget catalog ctx h0 hpos
    obtain ⟨d, hd⟩ : ∃ d,
        ((pySplitDash ctx.academic_year).headD "").data.getLast? = some d := by
      cases hl : ((pySplitDash ctx.academic_year).headD "").data.getLast? with
      | none => exact absurd (List.getLast?_eq_none_iff.mp hl) hyd
      | some d => exact ⟨d, rfl⟩
    have hwl0 := assess_workload_eq_claimed (selectedOf catalog ctx) ctx d hd
    have hfields :
        (generate_semester_plan catalog ctx).courses = selectedOf catalog ctx ∧
        (generate_semester_plan catalog ctx).total_credits =
          sumCredits (selectedOf catalog ctx) ∧
        (generate_semester_plan catalog ctx).career_alignment_score =
          calculate_career_alignment (selectedOf catalog ctx) (specializationOf ctx)
            ctx.target_program ∧
        (generate_semester_plan catalog ctx).workload_level =
          claimedWorkloadLevel (selectedOf catalog ctx) d := by
      unfold generate_semester_plan generatePlanCore
      rw [hwl0]
      exact ⟨rfl, rfl, rfl, rfl⟩
    refine ⟨?_, ?_, ?_, ?_⟩
    · rw [hfields.1, hsel]
    · rw [hfields.2.1, hsel]
      rfl
    · rw [hfields.2.2.2, hsel]
      exact claimedWorkloadLevel_empty d
    · rw [hfields.2.2.1, hsel]
      exact calculate_career_alignment_empty _ _

/-- A finance-tagged course used in the C7 counterexample. -/
def finTaggedCourse : Course := { code := "FIN9", name := "finance elective", tags := ["fin"] }

/-- Counterexample to C7 as stated: with an empty core sequence (an unknown
specialization key) but a target containing `"HKU MFWM"`, the quantitative
tag-density term makes the alignment 0.4, not 0. -/
theorem career_alignment_empty_core_counterexample :
    pathCore "unknown_path" = [] ∧
    calculate_career_alignment [finTaggedCourse] "unknown_path" "HKU MFWM" = 2 / 5 ∧
    calculate_career_alignment [finTaggedCourse] "unknown_path" "HKU MFWM" ≠ 0 := by
  have heq : calculate_career_alignment [finTaggedCourse] "unknown_path" "HKU MFWM" = 2 / 5 := by
    unfold calculate_career_alignment
    rw [if_neg (by decide)]
    dsimp only
    rw [show pathCore "unknown_path" = [] from by decide,
      show strIn "HKU MFWM" "HKU MFWM" = true from by decide]
    simp [finTaggedCourse]
    norm_num
  refine ⟨by decide, heq, by rw [heq]; norm_num⟩

/-- The zero-budget context that witnesses the degenerate branch of C7. -/
def zeroCreditCtx : UserContext :=
  { academic_year := "2025-2026", current_semester := "Fall", major := "Economics",
    target_program := "", completed_courses := [], available_credits := 0 }

/-- A one-course positive-credit catalog for the C7 witness. -/
def posCreditCatalog : List Course :=
  [{ code := "ECO205", name := "Econometrics I", credits := some 5 }]

/-- Witness for C7: the degenerate zero-credit profile on a positive-credit
catalog produces the empty plan with light workload and alignment 0. -/
theorem plan_scores_in_range_witness :
    (generate_semester_plan posCreditCatalog zeroCreditCtx).courses = [] ∧
    (generate_semester_plan posCreditCatalog zeroCreditCtx).total_credits = 0 ∧
    (generate_semester_plan posCreditCatalog zeroCreditCtx).workload_level = "light" ∧
    (generate_semester_plan posCreditCatalog zeroCreditCtx).career_alignment_score = 0 :=
  (plan_scores_in_range posCreditCatalog zeroCreditCtx).2.2.2 rfl (by decide) (by decide)
